import Mathlib

/-!
Shallow embedding of the Idle Monitor plugin (src/main.ts).

Times are epoch milliseconds modelled as `Int` (JavaScript numbers holding
integer millisecond values).  Settings numeric fields are `Int` because the
settings tab stores whatever `parseInt` returns.  The DOM listener table is
modelled by one boolean per stable bound callback (DOM `addEventListener`
semantics: re-adding the same listener reference is a no-op, and the plugin
keeps stable bound references `detectKeyboardActivityBound` and
`resetActivityBound`).  Running `setInterval` timers are modelled as a list
of timer ids together with the plugin field `checkIdleIntervalId`.
-/

namespace IdleMonitor

/-- Untyped JavaScript value, as stored in the persisted settings record. -/
inductive JSValue where
  | num (n : Int)
  | str (s : String)
  | boolVal (b : Bool)
deriving DecidableEq

/-- Typed runtime settings (interface `IdleMonitorSettings`, main.ts lines 15-22). -/
structure IdleMonitorSettings where
  idleThreshold : Int
  checkInterval : Int
  includeMouseActivity : Bool
  textColor : String
  rainbowMode : Bool
  timeFormat24Hour : Bool
deriving DecidableEq

/-- Constant `DEFAULT_SETTINGS` (main.ts lines 24-31). -/
def DEFAULT_SETTINGS : IdleMonitorSettings :=
  { idleThreshold := 30000
    checkInterval := 1000
    includeMouseActivity := true
    textColor := ""
    rainbowMode := false
    timeFormat24Hour := false }

/-- Static set `IdleMonitor.IGNORED_KEYS` (main.ts lines 48-70). -/
def IGNORED_KEYS : List String :=
  [ r"Shift", r"Meta", r"Control", r"Alt", r"CapsLock",
    r"ArrowLeft", r"ArrowRight", r"ArrowUp", r"ArrowDown",
    r"Escape", r"Tab", r"Enter", r"Backspace", r"Delete", r"Insert",
    r"Home", r"End", r"PageUp", r"PageDown",
    r"F1", r"F2", r"F3", r"F4", r"F5", r"F6", r"F7", r"F8", r"F9",
    r"F10", r"F11", r"F12" ]

/-- A DOM `KeyboardEvent`, restricted to the fields the plugin reads. -/
structure KeyEvent where
  key : String
  metaKey : Bool
  ctrlKey : Bool
  altKey : Bool
  shiftKey : Bool
deriving DecidableEq

/-- Whole observable state of the plugin instance plus the DOM resources it
owns: the private fields of class `IdleMonitor` (main.ts lines 33-42), the
status-bar text, the two listener registrations (one boolean per stable bound
callback) and the multiset of live `setInterval` timers with a fresh-id
counter. -/
structure MonitorState where
  settings : IdleMonitorSettings
  lastActivityTime : Int
  statusText : String
  rainbowGradientStep : Int
  checkIdleIntervalId : Option Nat
  keydownInstalled : Bool
  mousemoveInstalled : Bool
  runningIntervals : List Nat
  nextIntervalId : Nat
deriving DecidableEq

/-- Method `updateStatusBarColor` (main.ts lines 195-227): the only state it
changes (beyond CSS styling, which is out of scope) is `rainbowGradientStep`,
advanced by 20 mod 360 when `rainbowMode` is on. -/
def updateStatusBarColor (s : MonitorState) : MonitorState :=
  if s.settings.rainbowMode then
    { s with rainbowGradientStep := (s.rainbowGradientStep + 20) % 360 }
  else
    s

/-- Method `resetActivity` (main.ts lines 163-167): records the current time
and synchronously resets the status bar to the active text. -/
def resetActivity (now : Int) (s : MonitorState) : MonitorState :=
  updateStatusBarColor
    { s with lastActivityTime := now, statusText := "All caught up!" }

/-- Decision inside `detectKeyboardActivity` (main.ts lines 118-127) of
whether the key event counts as real typing, i.e. whether `resetActivity`
is called. -/
def isQualifyingKeyEvent (evt : KeyEvent) : Bool :=
  if evt.metaKey || evt.ctrlKey || evt.altKey then false
  else if IGNORED_KEYS.contains evt.key then false
  else true

/-- Method `detectKeyboardActivity` (main.ts lines 118-127). -/
def detectKeyboardActivity (evt : KeyEvent) (now : Int) (s : MonitorState) :
    MonitorState :=
  if evt.metaKey || evt.ctrlKey || evt.altKey then s
  else if IGNORED_KEYS.contains evt.key then s
  else resetActivity now s

/-- Dispatch of one simulated `keydown` DOM event: the handler body runs once
when the listener is registered, never more (the registration is a single
boolean because the bound callback reference is stable).  The second component
counts how many times `resetActivity` is invoked. -/
def dispatchKeydown (evt : KeyEvent) (now : Int) (s : MonitorState) :
    MonitorState × Nat :=
  if s.keydownInstalled then
    (detectKeyboardActivity evt now s,
      if isQualifyingKeyEvent evt then 1 else 0)
  else
    (s, 0)

/-- String construction of `updateIdleStatus` (main.ts lines 169-186).
`Math.floor` of an integer division is `Int.fdiv`; the JavaScript `%`
operator is truncating remainder, `Int.tmod`. -/
def formatIdleDuration (idleTime : Int) : String :=
  let totalSeconds := Int.fdiv idleTime 1000
  let hours := Int.fdiv totalSeconds 3600
  let minutes := Int.fdiv (Int.tmod totalSeconds 3600) 60
  let seconds := Int.tmod totalSeconds 60
  let timeString := ""
  let timeString :=
    if hours > 0 then
      timeString ++ toString hours ++ " hour" ++
        (if hours ≠ 1 then "s" else "") ++ " "
    else timeString
  let timeString :=
    if minutes > 0 ∨ hours > 0 then
      timeString ++ toString minutes ++ " minute" ++
        (if minutes ≠ 1 then "s" else "") ++ " "
    else timeString
  timeString ++ toString seconds ++ " second" ++
    (if seconds ≠ 1 then "s" else "")

/-- Method `updateIdleStatus` (main.ts lines 169-186): sets the idle text. -/
def updateIdleStatus (idleTime : Int) (s : MonitorState) : MonitorState :=
  updateStatusBarColor
    { s with statusText := "Idle for " ++ formatIdleDuration idleTime }

/-- One tick of the interval callback installed by `detectActivity`
(main.ts lines 152-160). -/
def pollTick (now : Int) (s : MonitorState) : MonitorState :=
  let idleTime := now - s.lastActivityTime
  if idleTime > s.settings.idleThreshold then
    updateIdleStatus idleTime s
  else
    updateStatusBarColor { s with statusText := "All caught up!" }

/-- Method `detectActivity` (main.ts lines 134-161): removes both listeners,
re-adds the keyboard listener, conditionally adds the mouse listener, clears
the previous interval when one exists, and starts a fresh interval. -/
def detectActivity (s : MonitorState) : MonitorState :=
  let s1 := { s with keydownInstalled := false, mousemoveInstalled := false }
  let s2 := { s1 with keydownInstalled := true }
  let s3 :=
    if s2.settings.includeMouseActivity then
      { s2 with mousemoveInstalled := true }
    else s2
  let s4 :=
    match s3.checkIdleIntervalId with
    | some id => { s3 with runningIntervals := s3.runningIntervals.erase id }
    | none => s3
  { s4 with
      runningIntervals := s4.nextIntervalId :: s4.runningIntervals,
      checkIdleIntervalId := some s4.nextIntervalId,
      nextIntervalId := s4.nextIntervalId + 1 }

/-- Method `onunload` (main.ts lines 103-111): removes both listeners and,
when an interval is running, clears it and nulls the id. -/
def onunload (s : MonitorState) : MonitorState :=
  let s1 := { s with keydownInstalled := false, mousemoveInstalled := false }
  match s1.checkIdleIntervalId with
  | some id =>
      { s1 with
          runningIntervals := s1.runningIntervals.erase id,
          checkIdleIntervalId := none }
  | none => s1

/-- Consistency of the timer bookkeeping: the live intervals are exactly the
one tracked by `checkIdleIntervalId` (holds from `onload` on, where the field
starts as `null` and no interval exists yet). -/
def timersOk (s : MonitorState) : Prop :=
  s.runningIntervals = s.checkIdleIntervalId.toList

instance (s : MonitorState) : Decidable (timersOk s) := by
  unfold timersOk; infer_instance

/-- Modelled from the spec: `formatClockTime` stands for the host API
`Date.toLocaleTimeString(undefined, ...)` used at main.ts lines 233-239,
which is browser/locale code absent from src/.  Per the spec it renders
hours, minutes and seconds of the timestamp, two digits each, honoring the
12-hour/24-hour flag, and is deterministic given the same epoch value and
flag. -/
def formatClockTime (epochMs : Int) (hour12 : Bool) : String :=
  let totalSeconds := Int.fdiv epochMs 1000
  let secOfDay := (Int.emod totalSeconds 86400).toNat
  let h := secOfDay / 3600
  let m := secOfDay % 3600 / 60
  let sec := secOfDay % 60
  let pad2 := fun (n : Nat) =>
    if n < 10 then "0" ++ toString n else toString n
  if hour12 then
    let h12 := h % 12
    let h12 := if h12 = 0 then 12 else h12
    pad2 h12 ++ ":" ++ pad2 m ++ ":" ++ pad2 sec ++
      (if h < 12 then " AM" else " PM")
  else
    pad2 h ++ ":" ++ pad2 m ++ ":" ++ pad2 sec

/-- Method `showLastActivityTime` (main.ts lines 232-241): reads
`lastActivityTime`, formats it with `hour12 = !timeFormat24Hour`, and shows a
notice.  Returns the unchanged state and the notice text. -/
def showLastActivityTime (s : MonitorState) : MonitorState × String :=
  let timeString :=
    formatClockTime s.lastActivityTime (!s.settings.timeFormat24Hour)
  (s, "You stopped typing at: " ++ timeString)

/-- JavaScript `parseInt(value, 10)`: skip leading whitespace, read an
optional sign and then a maximal run of decimal digits; `NaN` (here `none`)
exactly when that run is empty. -/
def parseIntBase10 (value : String) : Option Int :=
  let cs := value.data.dropWhile Char.isWhitespace
  let signAndRest : Bool × List Char :=
    match cs with
    | '-' :: rest => (true, rest)
    | '+' :: rest => (false, rest)
    | other => (false, other)
  let digits := signAndRest.2.takeWhile Char.isDigit
  if digits.isEmpty then none
  else
    let n : Nat := digits.foldl (fun acc c => acc * 10 + (c.toNat - 48)) 0
    some (if signAndRest.1 then -(n : Int) else (n : Int))

/-- `onChange` handler of the Idle Time Threshold text field
(main.ts lines 281-287). -/
def updateIdleThreshold (value : String) (s : IdleMonitorSettings) :
    IdleMonitorSettings :=
  { s with idleThreshold :=
      match parseIntBase10 value with
      | none => DEFAULT_SETTINGS.idleThreshold
      | some n => n }

/-- `onChange` handler of the Check Interval text field
(main.ts lines 297-303). -/
def updateCheckInterval (value : String) (s : IdleMonitorSettings) :
    IdleMonitorSettings :=
  { s with checkInterval :=
      match parseIntBase10 value with
      | none => DEFAULT_SETTINGS.checkInterval
      | some n => n }

/-- Persisted settings record handed back by `loadData()`: each field either
absent or holding an arbitrary (possibly wrongly typed) JavaScript value. -/
structure StoredData where
  idleThreshold : Option JSValue
  checkInterval : Option JSValue
  includeMouseActivity : Option JSValue
  textColor : Option JSValue
  rainbowMode : Option JSValue
  timeFormat24Hour : Option JSValue
deriving DecidableEq

/-- Settings object as it exists after `loadSettings`: every field present
but untyped, because `Object.assign` copies stored values unchecked. -/
structure LoadedSettings where
  idleThreshold : JSValue
  checkInterval : JSValue
  includeMouseActivity : JSValue
  textColor : JSValue
  rainbowMode : JSValue
  timeFormat24Hour : JSValue
deriving DecidableEq

/-- Constant `DEFAULT_SETTINGS` viewed as an untyped record (merge source). -/
def defaultSettingsJs : LoadedSettings :=
  { idleThreshold := JSValue.num 30000
    checkInterval := JSValue.num 1000
    includeMouseActivity := JSValue.boolVal true
    textColor := JSValue.str r""
    rainbowMode := JSValue.boolVal false
    timeFormat24Hour := JSValue.boolVal false }

/-- Method `loadSettings` (main.ts lines 246-248):
`Object.assign(\x7b\x7d, DEFAULT_SETTINGS, await this.loadData())`.
`Object.assign` ignores a `null`/`undefined` source (first run) and otherwise
copies every present own property over the default, with no type check. -/
def loadSettings (stored : Option StoredData) : LoadedSettings :=
  match stored with
  | none => defaultSettingsJs
  | some r =>
      { idleThreshold := r.idleThreshold.getD defaultSettingsJs.idleThreshold
        checkInterval := r.checkInterval.getD defaultSettingsJs.checkInterval
        includeMouseActivity :=
          r.includeMouseActivity.getD defaultSettingsJs.includeMouseActivity
        textColor := r.textColor.getD defaultSettingsJs.textColor
        rainbowMode := r.rainbowMode.getD defaultSettingsJs.rainbowMode
        timeFormat24Hour :=
          r.timeFormat24Hour.getD defaultSettingsJs.timeFormat24Hour }

/-- Rendering of the idle duration written from the specification text:
decompose `elapsedMs` into whole hours, minutes and seconds, emit the hours
segment unless hours is zero, the minutes segment unless both hours and
minutes are zero, always emit the seconds segment, join the emitted segments
with single spaces, and use the singular unit word exactly when the count
is 1. -/
def joinSegments : List String → String
  | [] => ""
  | [x] => x
  | x :: xs => x ++ " " ++ joinSegments xs

/-- Specification-side formatter (spec section 4.3), to be compared with the
source-derived `formatIdleDuration` on all `elapsedMs` greater or equal 0:
a segment renders as the count, the unit word (hour/minute/second, with its
separating space) and a plural s exactly when the count differs from 1. -/
def formatIdleDurationSpec (elapsedMs : Int) : String :=
  let totalSeconds := Int.fdiv elapsedMs 1000
  let hours := Int.fdiv totalSeconds 3600
  let minutes := Int.fdiv (Int.tmod totalSeconds 3600) 60
  let seconds := Int.tmod totalSeconds 60
  let segment := fun (count : Int) (unit : String) =>
    toString count ++ unit ++ (if count = 1 then "" else "s")
  joinSegments
    ((if hours = 0 then [] else [segment hours r" hour"]) ++
     (if hours = 0 ∧ minutes = 0 then [] else [segment minutes r" minute"]) ++
     [segment seconds r" second"])

/-- State with nothing registered, as right after construction. -/
def sampleState : MonitorState :=
  { settings := DEFAULT_SETTINGS
    lastActivityTime := 0
    statusText := "All caught up!"
    rainbowGradientStep := 0
    checkIdleIntervalId := none
    keydownInstalled := false
    mousemoveInstalled := false
    runningIntervals := []
    nextIntervalId := 0 }

/-! Helper lemmas: `updateStatusBarColor` touches only `rainbowGradientStep`. -/

@[simp] lemma updateStatusBarColor_statusText (s : MonitorState) :
    (updateStatusBarColor s).statusText = s.statusText := by
  unfold updateStatusBarColor; split <;> rfl

@[simp] lemma updateStatusBarColor_lastActivityTime (s : MonitorState) :
    (updateStatusBarColor s).lastActivityTime = s.lastActivityTime := by
  unfold updateStatusBarColor; split <;> rfl

@[simp] lemma updateStatusBarColor_settings (s : MonitorState) :
    (updateStatusBarColor s).settings = s.settings := by
  unfold updateStatusBarColor; split <;> rfl

@[simp] lemma updateStatusBarColor_keydownInstalled (s : MonitorState) :
    (updateStatusBarColor s).keydownInstalled = s.keydownInstalled := by
  unfold updateStatusBarColor; split <;> rfl

@[simp] lemma updateStatusBarColor_mousemoveInstalled (s : MonitorState) :
    (updateStatusBarColor s).mousemoveInstalled = s.mousemoveInstalled := by
  unfold updateStatusBarColor; split <;> rfl

@[simp] lemma updateStatusBarColor_runningIntervals (s : MonitorState) :
    (updateStatusBarColor s).runningIntervals = s.runningIntervals := by
  unfold updateStatusBarColor; split <;> rfl

@[simp] lemma updateStatusBarColor_checkIdleIntervalId (s : MonitorState) :
    (updateStatusBarColor s).checkIdleIntervalId = s.checkIdleIntervalId := by
  unfold updateStatusBarColor; split <;> rfl

@[simp] lemma resetActivity_lastActivityTime (now : Int) (s : MonitorState) :
    (resetActivity now s).lastActivityTime = now := by
  simp [resetActivity]

@[simp] lemma resetActivity_statusText (now : Int) (s : MonitorState) :
    (resetActivity now s).statusText = "All caught up!" := by
  simp [resetActivity]

@[simp] lemma resetActivity_settings (now : Int) (s : MonitorState) :
    (resetActivity now s).settings = s.settings := by
  simp [resetActivity]

/-- C1: on every poll tick with elapsed = now - lastActivityTime, the status
text is the idle string exactly when elapsed strictly exceeds the threshold
and the active string otherwise; in particular elapsed equal to the
threshold still gives the active text and elapsed equal to threshold + 1
gives the idle text. -/
theorem pollTick_threshold_strict (s : MonitorState) (now : Int) :
    (now - s.lastActivityTime ≤ s.settings.idleThreshold →
      (pollTick now s).statusText = "All caught up!") ∧
    (now - s.lastActivityTime > s.settings.idleThreshold →
      (pollTick now s).statusText =
        "Idle for " ++ formatIdleDuration (now - s.lastActivityTime)) ∧
    (now - s.lastActivityTime = s.settings.idleThreshold →
      (pollTick now s).statusText = "All caught up!") ∧
    (now - s.lastActivityTime = s.settings.idleThreshold + 1 →
      (pollTick now s).statusText =
        "Idle for " ++ formatIdleDuration (s.settings.idleThreshold + 1)) := by
  refine ⟨?_, ?_, ?_, ?_⟩
  · intro h
    simp only [pollTick]
    rw [if_neg (by omega)]
    simp
  · intro h
    simp only [pollTick]
    rw [if_pos (by omega)]
    simp [updateIdleStatus]
  · intro h
    simp only [pollTick]
    rw [if_neg (by omega)]
    simp
  · intro h
    simp only [pollTick]
    rw [if_pos (by omega), h]
    simp [updateIdleStatus]

/-- Witness for C1 at a concrete state: threshold 30000, last activity 0. -/
theorem pollTick_threshold_strict_witness :
    (pollTick 30000 sampleState).statusText = "All caught up!" ∧
    (pollTick 30001 sampleState).statusText =
      "Idle for " ++ formatIdleDuration (sampleState.settings.idleThreshold + 1) :=
  ⟨(pollTick_threshold_strict sampleState 30000).2.2.1 (by decide),
   (pollTick_threshold_strict sampleState 30001).2.2.2 (by decide)⟩

/-- C5: `resetActivity` stores the current time and synchronously resets the
status text to the active string; a poll tick running at that same current
time then observes elapsed = 0 and stays active (for a nonnegative
threshold), never a stale idle report. -/
theorem resetActivity_immediate_active (s : MonitorState) (now : Int) :
    (resetActivity now s).lastActivityTime = now ∧
    (resetActivity now s).statusText = "All caught up!" ∧
    (0 ≤ s.settings.idleThreshold →
      (pollTick now (resetActivity now s)).statusText = "All caught up!") := by
  refine ⟨by simp, by simp, ?_⟩
  intro h
  simp only [pollTick, resetActivity_lastActivityTime, resetActivity_settings]
  rw [if_neg (by omega)]
  simp

/-- Witness for C5 at a concrete state and time. -/
theorem resetActivity_immediate_active_witness :
    (0 : Int) ≤ sampleState.settings.idleThreshold ∧
    (pollTick 99999 (resetActivity 99999 sampleState)).statusText =
      "All caught up!" :=
  ⟨by decide,
   (resetActivity_immediate_active sampleState 99999).2.2 (by decide)⟩

/-- C9: the hover query returns the state unchanged (it reads only
`lastActivityTime` and mutates nothing) and produces exactly the notice text
built from the clock rendering of that timestamp with
`hour12 = !timeFormat24Hour`. -/
theorem showLastActivityTime_readonly (s : MonitorState) :
    (showLastActivityTime s).1 = s ∧
    (showLastActivityTime s).2 =
      "You stopped typing at: " ++
        formatClockTime s.lastActivityTime (!s.settings.timeFormat24Hour) :=
  ⟨rfl, rfl⟩

/-- Witness for C9 at the freshly constructed state. -/
theorem showLastActivityTime_readonly_witness :
    (showLastActivityTime sampleState).1 = sampleState :=
  (showLastActivityTime_readonly sampleState).1

/-- Membership bridge for the ignored-key lookup. -/
lemma ignoredKeys_contains_iff (k : String) :
    IGNORED_KEYS.contains k = true ↔ k ∈ IGNORED_KEYS := by
  simp [List.contains, List.elem_iff]

/-- C3: a key event qualifies as typing activity (and so triggers
`resetActivity`) iff no meta/ctrl/alt modifier is active and the key is
outside the fixed ignored set; shift is not consulted at all. -/
theorem isQualifyingKeyEvent_spec (evt : KeyEvent) :
    ((evt.metaKey || evt.ctrlKey || evt.altKey) = true →
      isQualifyingKeyEvent evt = false) ∧
    (evt.key ∈ IGNORED_KEYS → isQualifyingKeyEvent evt = false) ∧
    (evt.metaKey = false → evt.ctrlKey = false → evt.altKey = false →
      evt.key ∉ IGNORED_KEYS → isQualifyingKeyEvent evt = true) ∧
    (∀ (now : Int) (s : MonitorState),
      detectKeyboardActivity evt now s =
        if isQualifyingKeyEvent evt then resetActivity now s else s) := by
  refine ⟨?_, ?_, ?_, ?_⟩
  · intro h
    simp [isQualifyingKeyEvent, h]
  · intro h
    have hc : IGNORED_KEYS.contains evt.key = true :=
      (ignoredKeys_contains_iff evt.key).mpr h
    simp [isQualifyingKeyEvent, hc]
    intro _ _ _
    exact h
  · intro hm hc ha hk
    have hcon : IGNORED_KEYS.contains evt.key = false := by
      rcases hb : IGNORED_KEYS.contains evt.key with _ | _
      · rfl
      · exact absurd ((ignoredKeys_contains_iff evt.key).mp hb) hk
    simp [isQualifyingKeyEvent, hm, hc, ha, hcon]
    exact hk
  · intro now s
    unfold detectKeyboardActivity isQualifyingKeyEvent
    rcases hmod : evt.metaKey || evt.ctrlKey || evt.altKey with _ | _
    · simp only [Bool.false_eq_true, if_false]
      rcases hb : IGNORED_KEYS.contains evt.key with _ | _ <;> simp
    · simp

/-- Witness for C3: the plain letter a with no modifiers qualifies. -/
theorem isQualifyingKeyEvent_spec_witness :
    isQualifyingKeyEvent
      { key := r"a", metaKey := false, ctrlKey := false,
        altKey := false, shiftKey := false } = true :=
  (isQualifyingKeyEvent_spec
      { key := r"a", metaKey := false, ctrlKey := false,
        altKey := false, shiftKey := false }).2.2.1
    rfl rfl rfl (by decide)

/-- Core effect of one `detectActivity` call on registrations, assuming the
timer bookkeeping is consistent. -/
lemma detectActivity_registration (s : MonitorState) (h : timersOk s) :
    timersOk (detectActivity s) ∧
    (detectActivity s).runningIntervals = [s.nextIntervalId] ∧
    (detectActivity s).keydownInstalled = true ∧
    (detectActivity s).mousemoveInstalled = s.settings.includeMouseActivity ∧
    (detectActivity s).settings = s.settings := by
  rcases s with ⟨se, la, st, rg, ci, kd, mm, ri, ni⟩
  unfold timersOk at h
  cases ci with
  | none =>
      simp only [Option.toList] at h
      cases hmouse : se.includeMouseActivity <;>
        simp_all [detectActivity, timersOk]
  | some id =>
      simp only [Option.toList] at h
      cases hmouse : se.includeMouseActivity <;>
        simp_all [detectActivity, timersOk]

/-- C4: every (re-)start tears down the previous registrations before
installing new ones, so after any `detectActivity` call at most one keyboard
listener, one optional mouse listener and exactly one poll timer exist; a
second call with the same settings keeps that invariant, and one simulated
qualifying key event after the double start triggers exactly one
`resetActivity` call. -/
theorem detectActivity_single_registration
    (s : MonitorState) (evt : KeyEvent) (now : Int) (h : timersOk s) :
    timersOk (detectActivity s) ∧
    (detectActivity s).runningIntervals.length = 1 ∧
    (detectActivity s).keydownInstalled = true ∧
    (detectActivity s).mousemoveInstalled = s.settings.includeMouseActivity ∧
    timersOk (detectActivity (detectActivity s)) ∧
    (detectActivity (detectActivity s)).runningIntervals.length = 1 ∧
    (isQualifyingKeyEvent evt = true →
      (dispatchKeydown evt now (detectActivity (detectActivity s))).2 = 1) := by
  obtain ⟨h1, h2, h3, h4, h5⟩ := detectActivity_registration s h
  obtain ⟨g1, g2, g3, g4, g5⟩ := detectActivity_registration _ h1
  refine ⟨h1, by rw [h2]; rfl, h3, h4, g1, by rw [g2]; rfl, ?_⟩
  intro hq
  simp [dispatchKeydown, g3, hq]

/-- Witness for C4 at the freshly constructed state and the letter a. -/
theorem detectActivity_single_registration_witness :
    timersOk sampleState ∧
    isQualifyingKeyEvent
      { key := r"a", metaKey := false, ctrlKey := false,
        altKey := false, shiftKey := false } = true ∧
    (dispatchKeydown
      { key := r"a", metaKey := false, ctrlKey := false,
        altKey := false, shiftKey := false }
      5 (detectActivity (detectActivity sampleState))).2 = 1 :=
  ⟨by decide, by decide,
   (detectActivity_single_registration sampleState
      { key := r"a", metaKey := false, ctrlKey := false,
        altKey := false, shiftKey := false }
      5 (by decide)).2.2.2.2.2.2 (by decide)⟩

/-- C8: `onunload` removes both listeners and cancels the running poll timer
when one exists; running it twice gives the same state as running it once,
and when nothing is registered it is a no-op on the whole state. -/
theorem onunload_teardown (s : MonitorState) (h : timersOk s) :
    (onunload s).keydownInstalled = false ∧
    (onunload s).mousemoveInstalled = false ∧
    (onunload s).runningIntervals = [] ∧
    (onunload s).checkIdleIntervalId = none ∧
    onunload (onunload s) = onunload s ∧
    (s.keydownInstalled = false → s.mousemoveInstalled = false →
      s.checkIdleIntervalId = none → onunload s = s) := by
  rcases s with ⟨se, la, st, rg, ci, kd, mm, ri, ni⟩
  unfold timersOk at h
  cases ci with
  | none =>
      simp only [Option.toList] at h
      subst h
      refine ⟨rfl, rfl, rfl, rfl, rfl, ?_⟩
      intro hk hm _
      subst hk; subst hm
      rfl
  | some id =>
      simp only [Option.toList] at h
      subst h
      refine ⟨rfl, rfl, ?_, rfl, ?_, ?_⟩
      · simp [onunload]
      · simp [onunload]
      · intro _ _ hc
        exact absurd hc (by simp)

/-- Witness for C8 at a state with one live timer. -/
theorem onunload_teardown_witness :
    timersOk (detectActivity sampleState) ∧
    (onunload (detectActivity sampleState)).runningIntervals = [] ∧
    onunload (onunload (detectActivity sampleState)) =
      onunload (detectActivity sampleState) :=
  ⟨by decide,
   (onunload_teardown (detectActivity sampleState) (by decide)).2.2.1,
   (onunload_teardown (detectActivity sampleState) (by decide)).2.2.2.2.1⟩

/-- C6 counterexample: the numeric entry points guard only against NaN, so
the user strings 0 and -5 are stored as the numbers 0 and -5 — the claim
that invalid values are never stored as zero or negative fails. -/
theorem updateIdleThreshold_stores_zero_counterexample :
    (updateIdleThreshold r"0" DEFAULT_SETTINGS).idleThreshold = 0 ∧
    (0 : Int) ≠ 30000 ∧
    (updateIdleThreshold r"-5" DEFAULT_SETTINGS).idleThreshold = -5 ∧
    (updateCheckInterval r"0" DEFAULT_SETTINGS).checkInterval = 0 := by
  decide

/-- C6 amended: both numeric entry points always store the integer that
`parseInt` returns, falling back to the default (30000 resp. 1000) exactly
when parsing yields NaN; the stored value is therefore always an integer and
never NaN, but strings parsing to zero or to a negative integer are stored
as parsed, so positivity is not enforced. -/
theorem updateNumericSettings_parse_or_default
    (value : String) (s : IdleMonitorSettings) :
    (updateIdleThreshold value s).idleThreshold =
      (parseIntBase10 value).getD 30000 ∧
    (updateCheckInterval value s).checkInterval =
      (parseIntBase10 value).getD 1000 ∧
    (updateIdleThreshold r"0" s).idleThreshold = 0 ∧
    (updateIdleThreshold r"-5" s).idleThreshold = -5 ∧
    (updateIdleThreshold r"abc" s).idleThreshold = 30000 ∧
    (updateCheckInterval r"abc" s).checkInterval = 1000 := by
  refine ⟨?_, ?_,
    by dsimp only [updateIdleThreshold]; decide,
    by dsimp only [updateIdleThreshold]; decide,
    by dsimp only [updateIdleThreshold]; decide,
    by dsimp only [updateCheckInterval]; decide⟩
  · rcases hp : parseIntBase10 value with _ | n <;>
      simp [updateIdleThreshold, hp, DEFAULT_SETTINGS]
  · rcases hp : parseIntBase10 value with _ | n <;>
      simp [updateCheckInterval, hp, DEFAULT_SETTINGS]

/-- Witness for C6 amended at the unparsable string abc. -/
theorem updateNumericSettings_parse_or_default_witness :
    (updateIdleThreshold r"abc" DEFAULT_SETTINGS).idleThreshold =
      (parseIntBase10 r"abc").getD 30000 :=
  (updateNumericSettings_parse_or_default r"abc" DEFAULT_SETTINGS).1

/-- C7 counterexample: `loadSettings` is `Object.assign` over the defaults
with no type check, so a stored `idleThreshold` holding the string abc loads
as that string, not as the default 30000. -/
theorem loadSettings_abc_counterexample :
    (loadSettings (some
        { idleThreshold := some (JSValue.str r"abc")
          checkInterval := none
          includeMouseActivity := none
          textColor := none
          rainbowMode := none
          timeFormat24Hour := none })).idleThreshold = JSValue.str r"abc" ∧
    JSValue.str r"abc" ≠ JSValue.num 30000 := by
  decide

/-- C7 amended: loading is a shallow merge over the defaults in which any
absent field (or an entirely missing record on first run) is replaced by its
default, while any present field overrides the default unchecked, whatever
its type. -/
theorem loadSettings_shallow_merge (r : StoredData) :
    loadSettings none = defaultSettingsJs ∧
    (r.idleThreshold = none →
      (loadSettings (some r)).idleThreshold = JSValue.num 30000) ∧
    (∀ v : JSValue, r.idleThreshold = some v →
      (loadSettings (some r)).idleThreshold = v) ∧
    (∀ v : JSValue, r.checkInterval = some v →
      (loadSettings (some r)).checkInterval = v) := by
  refine ⟨rfl, ?_, ?_, ?_⟩
  · intro h
    simp [loadSettings, h, defaultSettingsJs]
  · intro v h
    simp [loadSettings, h]
  · intro v h
    simp [loadSettings, h]

/-- Witness for C7 amended: a record storing only a malformed idleThreshold. -/
theorem loadSettings_shallow_merge_witness :
    (loadSettings (some
        { idleThreshold := some (JSValue.str r"abc")
          checkInterval := none
          includeMouseActivity := none
          textColor := none
          rainbowMode := none
          timeFormat24Hour := none })).checkInterval = JSValue.num 1000 ∧
    (loadSettings (some
        { idleThreshold := some (JSValue.str r"abc")
          checkInterval := none
          includeMouseActivity := none
          textColor := none
          rainbowMode := none
          timeFormat24Hour := none })).idleThreshold = JSValue.str r"abc" := by
  constructor
  · decide
  · exact (loadSettings_shallow_merge
      { idleThreshold := some (JSValue.str r"abc")
        checkInterval := none
        includeMouseActivity := none
        textColor := none
        rainbowMode := none
        timeFormat24Hour := none }).2.2.1 (JSValue.str r"abc") rfl

/-- C10: a numeric settings string whose leading characters form a base-10
integer is stored as that parsed integer (50 for 50x, 12 for 12.9), and only
a string with no parsable leading integer falls back to the default. -/
theorem updateNumericSettings_leading_integer
    (value : String) (s : IdleMonitorSettings) :
    (∀ n : Int, parseIntBase10 value = some n →
      (updateIdleThreshold value s).idleThreshold = n ∧
      (updateCheckInterval value s).checkInterval = n) ∧
    (parseIntBase10 value = none →
      (updateIdleThreshold value s).idleThreshold = 30000 ∧
      (updateCheckInterval value s).checkInterval = 1000) ∧
    parseIntBase10 r"50x" = some 50 ∧
    parseIntBase10 r"12.9" = some 12 ∧
    parseIntBase10 r"abc" = none ∧
    (updateIdleThreshold r"50x" s).idleThreshold = 50 ∧
    (updateCheckInterval r"12.9" s).checkInterval = 12 := by
  refine ⟨?_, ?_, by decide, by decide, by decide, ?_, ?_⟩
  · intro n hn
    simp [updateIdleThreshold, updateCheckInterval, hn]
  · intro hn
    simp [updateIdleThreshold, updateCheckInterval, hn, DEFAULT_SETTINGS]
  · simp [updateIdleThreshold, parseIntBase10]
  · simp [updateCheckInterval, parseIntBase10]

/-- Witness for C10 applying the general part at the string 50x. -/
theorem updateNumericSettings_leading_integer_witness :
    parseIntBase10 r"50x" = some 50 ∧
    (updateIdleThreshold r"50x" DEFAULT_SETTINGS).idleThreshold = 50 ∧
    (updateCheckInterval r"50x" DEFAULT_SETTINGS).checkInterval = 50 :=
  ⟨by decide,
   ((updateNumericSettings_leading_integer r"50x" DEFAULT_SETTINGS).1 50
      (by decide)).1,
   ((updateNumericSettings_leading_integer r"50x" DEFAULT_SETTINGS).1 50
      (by decide)).2⟩

/-- Plural suffix of the source (non-equality test) and of the spec
(equality test) agree. -/
lemma plural_suffix_eq (c : Int) :
    (if c ≠ 1 then r"s" else "") = (if c = 1 then "" else r"s") := by
  by_cases hc : c = 1 <;> simp [hc]

/-- C2: for every elapsedMs greater or equal 0 the source formatter agrees
with the specification formatter (hours/minutes/seconds decomposition,
segment omission rules, mandatory seconds segment, pluralization iff the
count differs from 1), and it produces the four example strings of the
spec. -/
theorem formatIdleDuration_refines_spec :
    (∀ e : Int, 0 ≤ e → formatIdleDuration e = formatIdleDurationSpec e) ∧
    formatIdleDuration 0 = r"0 seconds" ∧
    formatIdleDuration 61000 = r"1 minute 1 second" ∧
    formatIdleDuration 3661000 = r"1 hour 1 minute 1 second" ∧
    formatIdleDuration 7200000 = r"2 hours 0 minutes 0 seconds" := by
  refine ⟨?_, by decide, by decide, by decide, by decide⟩
  intro e he
  have hts0 : 0 ≤ Int.fdiv e 1000 := Int.fdiv_nonneg he (by decide)
  have hh0 : 0 ≤ Int.fdiv (Int.fdiv e 1000) 3600 :=
    Int.fdiv_nonneg hts0 (by decide)
  have hm0 : 0 ≤ Int.fdiv (Int.tmod (Int.fdiv e 1000) 3600) 60 :=
    Int.fdiv_nonneg (Int.tmod_nonneg _ hts0) (by decide)
  simp only [formatIdleDuration, formatIdleDurationSpec]
  set hrs := Int.fdiv (Int.fdiv e 1000) 3600 with hrsdef
  set mins := Int.fdiv (Int.tmod (Int.fdiv e 1000) 3600) 60 with minsdef
  set secs := Int.tmod (Int.fdiv e 1000) 60 with secsdef
  by_cases hz : hrs = 0
  · by_cases mz : mins = 0
    · simp [hz, mz, joinSegments, plural_suffix_eq, String.append_assoc]
    · have hm1 : 0 < mins := by omega
      simp [hz, mz, hm1, joinSegments, plural_suffix_eq, String.append_assoc]
  · have hh1 : 0 < hrs := by omega
    simp [hz, hh1, joinSegments, plural_suffix_eq, String.append_assoc]

/-- Witness for C2 applying the general part at 61000 ms. -/
theorem formatIdleDuration_refines_spec_witness :
    (0 : Int) ≤ 61000 ∧ formatIdleDuration 61000 = formatIdleDurationSpec 61000 :=
  ⟨by decide, formatIdleDuration_refines_spec.1 61000 (by decide)⟩

end IdleMonitor
